import Mathlib

/-!
Shallow embedding of `src/error.rs` of the `cbor` crate: the error envelope
`Error(Box<ErrorImpl>)`, the fault taxonomy `ErrorCode`, the `Display` and
`Debug` renderings, the legacy `description`/`cause` accessors, and the
serde framework-adapter constructors (`de::Error::custom`,
`de::Error::invalid_type`, `ser::Error::custom`).

External collaborator types (`std::io::Error`, serde's `de::Unexpected` and
`de::Expected`) are not part of this repository; they are modelled
abstractly by the observations the embedded code makes of them: their
`Display` text (and, for `io::Error`, its legacy `description` text and its
`Debug` text).  A serde `Expected` descriptor is likewise identified with
its `Display` text.  Byte offsets are `u64` in the source; no arithmetic is
ever performed on them, so they are modelled as `Nat` (which also makes the
"never negative" invariant a statement about the cast to `Int`).
-/

namespace Cbor

/-- External collaborator: a transport-level fault from the host environment
(`std::io::Error`).  Modelled abstractly by the three observations the
embedded code makes of it: its `Display` text, its legacy `description`
text, and its `Debug` text (used only by the derived structural dump). -/
structure IoError where
  display : String
  description : String
  debugText : String
  deriving DecidableEq, Repr

/-- `ErrorCode` (src/error.rs lines 104-120): the fault taxonomy.  Twelve
payload-free categories plus the two open-ended catch-alls `Message` (free
text) and `Io` (wrapped transport fault). -/
inductive ErrorCode where
  | Message (msg : String)
  | Io (err : IoError)
  | EofWhileParsingValue
  | EofWhileParsingArray
  | EofWhileParsingMap
  | NumberOutOfRange
  | LengthOutOfRange
  | InvalidUtf8
  | UnassignedCode
  | UnexpectedCode
  | TrailingData
  | ArrayTooShort
  | ArrayTooLong
  | RecursionLimitExceeded
  deriving DecidableEq, Repr

/-- `impl fmt::Display for ErrorCode` (src/error.rs lines 122-141): the
fixed text of each category; a `Message` renders its text verbatim and an
`Io` renders the wrapped fault's own display text. -/
def ErrorCode.display : ErrorCode → String
  | .Message msg => msg
  | .Io err => err.display
  | .EofWhileParsingValue => "EOF while parsing a value"
  | .EofWhileParsingArray => "EOF while parsing an array"
  | .EofWhileParsingMap => "EOF while parsing a map"
  | .NumberOutOfRange => "number out of range"
  | .LengthOutOfRange => "length out of range"
  | .InvalidUtf8 => "invalid UTF-8"
  | .UnassignedCode => "unassigned type"
  | .UnexpectedCode => "unexpected code"
  | .TrailingData => "trailing data"
  | .ArrayTooShort => "array too short"
  | .ArrayTooLong => "array too long"
  | .RecursionLimitExceeded => "recursion limit exceeded"

/-- The derived `Debug` rendering of an `ErrorCode`: the variant name, with
a payload printed inside parentheses (`reprStr` plays the role of the
derived `Debug` of `String`; the wrapped `io::Error` contributes its own
`Debug` text). -/
def ErrorCode.debugRepr : ErrorCode → String
  | .Message msg => "Message(" ++ reprStr msg ++ ")"
  | .Io err => "Io(" ++ err.debugText ++ ")"
  | .EofWhileParsingValue => "EofWhileParsingValue"
  | .EofWhileParsingArray => "EofWhileParsingArray"
  | .EofWhileParsingMap => "EofWhileParsingMap"
  | .NumberOutOfRange => "NumberOutOfRange"
  | .LengthOutOfRange => "LengthOutOfRange"
  | .InvalidUtf8 => "InvalidUtf8"
  | .UnassignedCode => "UnassignedCode"
  | .UnexpectedCode => "UnexpectedCode"
  | .TrailingData => "TrailingData"
  | .ArrayTooShort => "ArrayTooShort"
  | .ArrayTooLong => "ArrayTooLong"
  | .RecursionLimitExceeded => "RecursionLimitExceeded"

/-- `ErrorImpl` (src/error.rs lines 98-102): one fault category plus the
byte offset (`u64`, modelled as `Nat`). -/
structure ErrorImpl where
  code : ErrorCode
  offset : Nat
  deriving DecidableEq, Repr

/-- `Error(Box<ErrorImpl>)` (src/error.rs line 11): the externally visible
error envelope; the single-owner `Box` indirection becomes a one-field
structure. -/
structure Error where
  impl : ErrorImpl
  deriving DecidableEq, Repr

/-- `Error::offset` (src/error.rs lines 18-20): the byte offset at which
the error occurred. -/
def Error.offset (e : Error) : Nat :=
  e.impl.offset

/-- `Error::syntax` (src/error.rs lines 22-24), the "syntax" construction
path: an envelope carrying the given category and offset verbatim.  (Named
`syn` here because the source's name is a reserved word in Lean.) -/
def Error.syn (code : ErrorCode) (offset : Nat) : Error :=
  ⟨⟨code, offset⟩⟩

/-- `Error::io` (src/error.rs lines 26-31), the "io" construction path: an
`Io`-tagged envelope with offset forced to 0. -/
def Error.io (error : IoError) : Error :=
  ⟨⟨.Io error, 0⟩⟩

/-- `error::Error::description` (src/error.rs lines 35-40): the wrapped
fault's description for an `Io` envelope, the constant `"CBOR error"`
otherwise. -/
def Error.description (e : Error) : String :=
  match e.impl.code with
  | .Io err => err.description
  | _ => "CBOR error"

/-- `error::Error::cause` (src/error.rs lines 42-47): the wrapped fault for
an `Io` envelope, nothing otherwise. -/
def Error.cause (e : Error) : Option IoError :=
  match e.impl.code with
  | .Io err => some err
  | _ => none

/-- `impl fmt::Display for Error` (src/error.rs lines 50-58): the
category's text alone when the offset is 0, otherwise the category's text
followed by `" at offset {offset}"`. -/
def Error.display (e : Error) : String :=
  if e.impl.offset = 0 then
    e.impl.code.display
  else
    e.impl.code.display ++ " at offset " ++ toString e.impl.offset

/-- `impl fmt::Debug for Error` (src/error.rs lines 60-64): delegates to
the derived `Debug` of the boxed `ErrorImpl`. -/
def Error.debugRepr (e : Error) : String :=
  "ErrorImpl \x7b code: " ++ e.impl.code.debugRepr ++ ", offset: "
    ++ toString e.impl.offset ++ " \x7d"

/-- External collaborator: serde's `de::Unexpected`, the actual-value
descriptor passed to `invalid_type`.  The embedded code distinguishes only
the `Unit` variant (the "null/unit" descriptor) from all others, and
otherwise uses the descriptor's own `Display` text, so every non-unit
variant is modelled by that text.  (serde renders `Unit` as
`"unit value"`; the embedded code never uses that text.) -/
inductive Unexpected where
  | unit
  | nonUnit (text : String)
  deriving DecidableEq, Repr

/-- The `Display` text of a `de::Unexpected` descriptor. -/
def Unexpected.display : Unexpected → String
  | .unit => "unit value"
  | .nonUnit text => text

/-- `de::Error::custom` (src/error.rs lines 67-75): a `Message`-tagged
envelope with offset 0.  The `T: Display` message is identified with its
display text (`msg.to_string()`). -/
def Error.de_custom (msg : String) : Error :=
  ⟨⟨.Message msg, 0⟩⟩

/-- `de::Error::invalid_type` (src/error.rs lines 77-83): for the unit
descriptor the text names `null`, otherwise the descriptor's own display
text; the expected-type descriptor `exp` is identified with its display
text. -/
def Error.invalid_type (unexp : Unexpected) (exp : String) : Error :=
  match unexp with
  | .unit => Error.de_custom ("invalid type: null, expected " ++ exp)
  | u => Error.de_custom ("invalid type: " ++ u.display ++ ", expected " ++ exp)

/-- `ser::Error::custom` (src/error.rs lines 87-95): a `Message`-tagged
envelope with offset 0, same body as `de::Error::custom`. -/
def Error.ser_custom (msg : String) : Error :=
  ⟨⟨.Message msg, 0⟩⟩

/-- The terminal classification tags of the taxonomy: one tag per
`ErrorCode` constructor, payload forgotten. -/
inductive ErrorCodeTag where
  | MessageTag
  | IoTag
  | EofWhileParsingValueTag
  | EofWhileParsingArrayTag
  | EofWhileParsingMapTag
  | NumberOutOfRangeTag
  | LengthOutOfRangeTag
  | InvalidUtf8Tag
  | UnassignedCodeTag
  | UnexpectedCodeTag
  | TrailingDataTag
  | ArrayTooShortTag
  | ArrayTooLongTag
  | RecursionLimitExceededTag
  deriving DecidableEq, Fintype, Repr

/-- The classification tag of a fault category. -/
def ErrorCode.tag : ErrorCode → ErrorCodeTag
  | .Message _ => .MessageTag
  | .Io _ => .IoTag
  | .EofWhileParsingValue => .EofWhileParsingValueTag
  | .EofWhileParsingArray => .EofWhileParsingArrayTag
  | .EofWhileParsingMap => .EofWhileParsingMapTag
  | .NumberOutOfRange => .NumberOutOfRangeTag
  | .LengthOutOfRange => .LengthOutOfRangeTag
  | .InvalidUtf8 => .InvalidUtf8Tag
  | .UnassignedCode => .UnassignedCodeTag
  | .UnexpectedCode => .UnexpectedCodeTag
  | .TrailingData => .TrailingDataTag
  | .ArrayTooShort => .ArrayTooShortTag
  | .ArrayTooLong => .ArrayTooLongTag
  | .RecursionLimitExceeded => .RecursionLimitExceededTag

/-- The observer operations the public surface offers on an envelope
(`offset()`, `Display`, `Debug`, `cause`, `description`).  In the source
each takes `&self`, a shared reference. -/
inductive Op where
  | offsetOp
  | displayOp
  | debugOp
  | causeOp
  | descriptionOp
  deriving DecidableEq, Repr

/-- The result of an observer operation. -/
inductive OpResult where
  | natRes (n : Nat)
  | strRes (s : String)
  | causeRes (c : Option IoError)
  deriving DecidableEq, Repr

/-- Running an observer operation on an envelope: the result together with
the envelope after the call.  Each source method takes `&self` and only
reads the two fields, so each branch returns the receiver unchanged. -/
def Error.runOp (e : Error) : Op → OpResult × Error
  | .offsetOp => (.natRes e.offset, e)
  | .displayOp => (.strRes e.display, e)
  | .debugOp => (.strRes e.debugRepr, e)
  | .causeOp => (.causeRes e.cause, e)
  | .descriptionOp => (.strRes e.description, e)

/-- C1: for every envelope, the Display rendering is exactly the
category's text when the stored offset is 0, and exactly the category's
text followed by `" at offset {offset}"` when the stored offset is
non-zero. -/
theorem display_offset_rule (e : Error) :
    (e.offset = 0 → e.display = e.impl.code.display) ∧
    (e.offset ≠ 0 →
      e.display = e.impl.code.display ++ " at offset " ++ toString e.offset) := by
  constructor <;> intro h <;>
    simp only [Error.offset] at h <;>
    simp [Error.display, Error.offset, h]

/-- Witness for C1: a concrete envelope with non-zero offset renders the
category's text followed by the offset suffix. -/
theorem display_offset_rule_witness :
    (Error.syn ErrorCode.TrailingData 5).offset ≠ 0 ∧
    (Error.syn ErrorCode.TrailingData 5).display
      = (Error.syn ErrorCode.TrailingData 5).impl.code.display ++ " at offset "
        ++ toString (Error.syn ErrorCode.TrailingData 5).offset :=
  ⟨by decide, (display_offset_rule (Error.syn ErrorCode.TrailingData 5)).2 (by decide)⟩

/-- C2: each of the twelve payload-free categories displays its fixed text
from the spec's table; a Message category renders its text verbatim and an
Io category renders the wrapped fault's own display text. -/
theorem errorCode_display_table :
    ErrorCode.EofWhileParsingValue.display = "EOF while parsing a value" ∧
    ErrorCode.EofWhileParsingArray.display = "EOF while parsing an array" ∧
    ErrorCode.EofWhileParsingMap.display = "EOF while parsing a map" ∧
    ErrorCode.NumberOutOfRange.display = "number out of range" ∧
    ErrorCode.LengthOutOfRange.display = "length out of range" ∧
    ErrorCode.InvalidUtf8.display = "invalid UTF-8" ∧
    ErrorCode.UnassignedCode.display = "unassigned type" ∧
    ErrorCode.UnexpectedCode.display = "unexpected code" ∧
    ErrorCode.TrailingData.display = "trailing data" ∧
    ErrorCode.ArrayTooShort.display = "array too short" ∧
    ErrorCode.ArrayTooLong.display = "array too long" ∧
    ErrorCode.RecursionLimitExceeded.display = "recursion limit exceeded" ∧
    (∀ msg, (ErrorCode.Message msg).display = msg) ∧
    (∀ f, (ErrorCode.Io f).display = f.display) :=
  ⟨rfl, rfl, rfl, rfl, rfl, rfl, rfl, rfl, rfl, rfl, rfl, rfl,
   fun _ => rfl, fun _ => rfl⟩

/-- C3: `offset()` returns exactly the offset supplied at construction: the
"syntax" path stores its argument verbatim, and the "io" path and both
framework-adapter paths (`custom` in either capability set, and
`invalid_type`) always store 0. -/
theorem offset_returns_construction_value :
    (∀ code n, (Error.syn code n).offset = n) ∧
    (∀ f, (Error.io f).offset = 0) ∧
    (∀ msg, (Error.de_custom msg).offset = 0) ∧
    (∀ msg, (Error.ser_custom msg).offset = 0) ∧
    (∀ u exp, (Error.invalid_type u exp).offset = 0) :=
  ⟨fun _ _ => rfl, fun _ => rfl, fun _ => rfl, fun _ => rfl,
   fun u _ => by cases u <;> rfl⟩

/-- C4: `invalid_type` with the null/unit actual descriptor displays
`"invalid type: null, expected E"`, and with any other actual descriptor
displays `"invalid type: A, expected E"` where A is that descriptor's own
display text. -/
theorem invalid_type_display (exp : String) :
    (Error.invalid_type Unexpected.unit exp).display
      = "invalid type: null, expected " ++ exp ∧
    (∀ u : Unexpected, u ≠ Unexpected.unit →
      (Error.invalid_type u exp).display
        = "invalid type: " ++ u.display ++ ", expected " ++ exp) := by
  refine ⟨rfl, fun u hu => ?_⟩
  cases u with
  | unit => exact absurd rfl hu
  | nonUnit text => rfl

/-- Witness for C4: the unit descriptor with expected text "a string"
yields the null wording, and a concrete non-unit descriptor yields its own
display text. -/
theorem invalid_type_display_witness :
    (Error.invalid_type Unexpected.unit "a string").display
      = "invalid type: null, expected a string" ∧
    (Unexpected.nonUnit "a boolean" ≠ Unexpected.unit ∧
      (Error.invalid_type (Unexpected.nonUnit "a boolean") "a string").display
        = "invalid type: " ++ (Unexpected.nonUnit "a boolean").display
          ++ ", expected a string") :=
  ⟨(invalid_type_display "a string").1,
   by decide,
   (invalid_type_display "a string").2 (Unexpected.nonUnit "a boolean") (by decide)⟩

/-- C5: the cause accessor returns the wrapped underlying fault exactly
when the category is Io, and returns no cause for every other category. -/
theorem cause_iff_io (e : Error) :
    (∀ f, e.impl.code = ErrorCode.Io f → e.cause = some f) ∧
    ((∀ f, e.impl.code ≠ ErrorCode.Io f) → e.cause = none) := by
  constructor
  · intro f hf
    simp [Error.cause, hf]
  · intro h
    unfold Error.cause
    cases hc : e.impl.code with
    | Io f => exact absurd hc (h f)
    | _ => rfl

/-- Witness for C5: an io-path envelope exposes the wrapped fault as its
cause; a syntax-path envelope exposes none. -/
theorem cause_iff_io_witness :
    (Error.io (IoError.mk "disk full" "disk full" "Custom")).cause
      = some (IoError.mk "disk full" "disk full" "Custom") ∧
    (Error.syn ErrorCode.TrailingData 3).cause = none :=
  ⟨(cause_iff_io (Error.io (IoError.mk "disk full" "disk full" "Custom"))).1 _ rfl,
   (cause_iff_io (Error.syn ErrorCode.TrailingData 3)).2
     (fun _ h => ErrorCode.noConfusion h)⟩

/-- C6 counterexample: the taxonomy has fourteen terminal classification
tags, not thirteen as the claim states. -/
theorem taxonomy_not_thirteen :
    Fintype.card ErrorCodeTag = 14 ∧ Fintype.card ErrorCodeTag ≠ 13 := by
  decide

/-- C6 amended: the fault taxonomy consists of exactly fourteen fault
categories (terminal classification tags), each realized by a constructor
of `ErrorCode`. -/
theorem taxonomy_fourteen_categories :
    Fintype.card ErrorCodeTag = 14 ∧ Function.Surjective ErrorCode.tag := by
  refine ⟨by decide, fun t => ?_⟩
  cases t
  · exact ⟨.Message "", rfl⟩
  · exact ⟨.Io ⟨"", "", ""⟩, rfl⟩
  · exact ⟨.EofWhileParsingValue, rfl⟩
  · exact ⟨.EofWhileParsingArray, rfl⟩
  · exact ⟨.EofWhileParsingMap, rfl⟩
  · exact ⟨.NumberOutOfRange, rfl⟩
  · exact ⟨.LengthOutOfRange, rfl⟩
  · exact ⟨.InvalidUtf8, rfl⟩
  · exact ⟨.UnassignedCode, rfl⟩
  · exact ⟨.UnexpectedCode, rfl⟩
  · exact ⟨.TrailingData, rfl⟩
  · exact ⟨.ArrayTooShort, rfl⟩
  · exact ⟨.ArrayTooLong, rfl⟩
  · exact ⟨.RecursionLimitExceeded, rfl⟩

/-- C7: for every displayable message, the custom construction path in both
capability sets yields a Message-tagged envelope carrying the message's
display text, with offset 0 (and hence that text as its own Display). -/
theorem custom_builds_message_offset_zero (msg : String) :
    (Error.de_custom msg).impl.code = ErrorCode.Message msg ∧
    (Error.de_custom msg).offset = 0 ∧
    (Error.de_custom msg).display = msg ∧
    (Error.ser_custom msg).impl.code = ErrorCode.Message msg ∧
    (Error.ser_custom msg).offset = 0 ∧
    (Error.ser_custom msg).display = msg :=
  ⟨rfl, rfl, rfl, rfl, rfl, rfl⟩

/-- C8: every envelope is immutable: it holds exactly one category and one
offset, the offset is never negative, and no observer operation (offset,
Display, Debug, cause, description) changes its category or offset. -/
theorem envelope_immutable (e : Error) (op : Op) :
    (e.runOp op).2 = e ∧
    (e.runOp op).2.impl.code = e.impl.code ∧
    (e.runOp op).2.impl.offset = e.impl.offset ∧
    0 ≤ (e.offset : Int) ∧
    e = Error.mk (ErrorImpl.mk e.impl.code e.impl.offset) := by
  cases op <;> exact ⟨rfl, rfl, rfl, Int.natCast_nonneg _, rfl⟩

/-- C9: the custom operation of the deserialization capability set and of
the serialization capability set are equivalent: for the same message they
produce the same envelope, hence the same category, offset, Display text
and cause. -/
theorem de_ser_custom_equivalent (msg : String) :
    Error.de_custom msg = Error.ser_custom msg ∧
    (Error.de_custom msg).impl.code = (Error.ser_custom msg).impl.code ∧
    (Error.de_custom msg).offset = (Error.ser_custom msg).offset ∧
    (Error.de_custom msg).display = (Error.ser_custom msg).display ∧
    (Error.de_custom msg).cause = (Error.ser_custom msg).cause :=
  ⟨rfl, rfl, rfl, rfl, rfl⟩

/-- C10: the legacy description accessor returns the constant "CBOR error"
for every non-Io category, regardless of Display text, and the wrapped
fault's description for an Io category. -/
theorem description_rule (e : Error) :
    ((∀ f, e.impl.code ≠ ErrorCode.Io f) → e.description = "CBOR error") ∧
    (∀ f, e.impl.code = ErrorCode.Io f → e.description = f.description) := by
  constructor
  · intro h
    unfold Error.description
    cases hc : e.impl.code with
    | Io f => exact absurd hc (h f)
    | _ => rfl
  · intro f hf
    simp [Error.description, hf]

/-- Witness for C10: a Message envelope (whose Display text is its own
message) still describes itself as "CBOR error", while an io-path envelope
takes the wrapped fault's description. -/
theorem description_rule_witness :
    (Error.de_custom "missing field x").description = "CBOR error" ∧
    (Error.io (IoError.mk "disk full" "entity not found" "Custom")).description
      = "entity not found" :=
  ⟨(description_rule (Error.de_custom "missing field x")).1
     (fun _ h => ErrorCode.noConfusion h),
   (description_rule (Error.io (IoError.mk "disk full" "entity not found" "Custom"))).2
     _ rfl⟩

end Cbor
